import Mathlib

/-!
Verification development for the Spark ETL job in `etl.py`.

The script reads song-metadata and event-log JSON records, derives five
analytical tables (songs, artists, users, time, songplays) and writes them
as parquet files.  Dataframes are modelled as Lean lists of records, the
dataframe operations (`filter`, `select`, `dropDuplicates`, `dropna`,
`join`, `withColumn`, `date_format`, the timestamp udf) as list functions,
and the side-effecting part of the script (session creation, reads,
parquet writes with their partitioning) as a trace of actions.
-/

namespace Etl

/-! ## Calendar arithmetic

`datetime.fromtimestamp` and Spark's `date_format` are embedded with exact
integer calendar arithmetic (proleptic Gregorian, epoch 1970-01-01).
`date_format` patterns follow `java.text.SimpleDateFormat` under the
US-style week convention Spark uses by default: weeks start on Sunday and
the first (possibly partial) week of a year or month counts as week 1.
-/

/-- Civil date (year, month, day) from a count of days since 1970-01-01. -/
def civilFromDays (days : Nat) : Nat × Nat × Nat :=
  let z := days + 719468
  let era := z / 146097
  let doe := z % 146097
  let yoe := (doe - doe / 1460 + doe / 36524 - doe / 146097) / 365
  let y := yoe + era * 400
  let doy := doe - (365 * yoe + yoe / 4 - yoe / 100)
  let mp := (5 * doy + 2) / 153
  let d := doy - (153 * mp + 2) / 5 + 1
  let m := if mp < 10 then mp + 3 else mp - 9
  if m ≤ 2 then (y + 1, m, d) else (y, m, d)

/-- Days since 1970-01-01 of a civil date (valid for years from 1970 on). -/
def daysFromCivil (y m d : Nat) : Nat :=
  let y2 := if m ≤ 2 then y - 1 else y
  let era := y2 / 400
  let yoe := y2 - era * 400
  let mp := if 2 < m then m - 3 else m + 9
  let doy := (153 * mp + 2) / 5 + d - 1
  let doe := yoe * 365 + yoe / 4 - yoe / 100 + doy
  era * 146097 + doe - 719468

/-- Calendar timestamp, the value of a Spark `TimestampType` column entry as
produced by the `get_timestamp` udf (millisecond precision). -/
structure CalDT where
  year : Nat
  month : Nat
  day : Nat
  hour : Nat
  minute : Nat
  second : Nat
  millis : Nat
deriving DecidableEq, Repr

/-- Embedding of the `get_timestamp` udf,
`lambda x: datetime.fromtimestamp(x / 1000.0)`: milliseconds since epoch to a
calendar timestamp.  `datetime.fromtimestamp` converts in the local timezone
of the process, so the model takes the timezone offset `tz` (in seconds east
of UTC) as a parameter; `tz = 0` is a UTC session. -/
def fromtimestamp (tz : Int) (ms : Nat) : CalDT :=
  let secs : Nat := (((ms / 1000 : Nat) : Int) + tz).toNat
  let days := secs / 86400
  let sod := secs % 86400
  let ymd := civilFromDays days
  CalDT.mk ymd.1 ymd.2.1 ymd.2.2 (sod / 3600) (sod % 3600 / 60) (sod % 60) (ms % 1000)

/-- Day of week, Sunday = 0, ..., Saturday = 6 (1970-01-01 was a Thursday). -/
def dayOfWeek (y m d : Nat) : Nat := (daysFromCivil y m d + 4) % 7

/-- Day of year (pattern D), 1-based. -/
def dayOfYear (t : CalDT) : Nat :=
  daysFromCivil t.year t.month t.day - daysFromCivil t.year 1 1 + 1

/-- Week of year (pattern w): weeks start on Sunday, the week containing
January 1 is week 1. -/
def weekOfYear (t : CalDT) : Nat :=
  (dayOfYear t + dayOfWeek t.year 1 1 - 1) / 7 + 1

/-- Week of month (pattern W): weeks start on Sunday, the week containing the
first of the month is week 1. -/
def weekOfMonth (t : CalDT) : Nat :=
  let dow1 := dayOfWeek t.year t.month 1
  if t.day ≤ 7 - dow1 then 1 else (t.day - (7 - dow1) - 1) / 7 + 2

/-- Day-of-week-in-month: the ordinal of the day among the days of its month
falling on the same weekday (pattern F).  Modelled from the spec: this is the
quantity the spec calls the "day-of-week-in-month pattern"; the source itself
formats with pattern W (week of month). -/
def dayOfWeekInMonth (t : CalDT) : Nat := (t.day - 1) / 7 + 1

/-- Spark `date_format(_, 'H')`: hour 0-23, unpadded. -/
def fmtH (t : CalDT) : String := toString t.hour

/-- Spark `date_format(_, 'D')`: day of year, unpadded. -/
def fmtD (t : CalDT) : String := toString (dayOfYear t)

/-- Spark `date_format(_, 'w')`: week of year, unpadded. -/
def fmtLowerW (t : CalDT) : String := toString (weekOfYear t)

/-- Spark `date_format(_, 'M')`: month number, unpadded. -/
def fmtM (t : CalDT) : String := toString t.month

/-- Spark `date_format(_, 'y')`: year number. -/
def fmtY (t : CalDT) : String := toString t.year

/-- Spark `date_format(_, 'W')`: week of month, unpadded. -/
def fmtUpperW (t : CalDT) : String := toString (weekOfMonth t)

/-! ## Input records

One JSON object per input line; absent or null JSON fields are `none`.
Numeric payload fields that the script only carries through unchanged
(latitude, longitude, duration, song year) are modelled at `Int` precision
since the script never computes with them. -/

/-- One song-metadata JSON record (input of `process_song_data` and of the
join in `process_log_data`). -/
structure SongRecord where
  song_id : Option String
  title : Option String
  artist_id : Option String
  artist_name : Option String
  artist_location : Option String
  artist_latitude : Option Int
  artist_longitude : Option Int
  duration : Option Int
  year : Option Int
deriving DecidableEq, Repr

/-- One event-log JSON record (input of `process_log_data`).  `ts` is an
epoch-millisecond integer. -/
structure LogRecord where
  page : String
  userId : Option String
  firstName : Option String
  lastName : Option String
  gender : Option String
  level : Option String
  song : Option String
  artist : Option String
  ts : Nat
  sessionId : Nat
  location : Option String
  userAgent : Option String
deriving DecidableEq, Repr

/-! ## Output rows -/

/-- Row of the songs table: `select(['song_id','title','artist_id','year','duration'])`. -/
structure SongsRow where
  song_id : Option String
  title : Option String
  artist_id : Option String
  year : Option Int
  duration : Option Int
deriving DecidableEq, Repr

/-- Row of the artists table. -/
structure ArtistsRow where
  artist_id : Option String
  artist_name : Option String
  artist_location : Option String
  artist_latitude : Option Int
  artist_longitude : Option Int
deriving DecidableEq, Repr

/-- Row of the users table. -/
structure UsersRow where
  userId : Option String
  firstName : Option String
  lastName : Option String
  gender : Option String
  level : Option String
deriving DecidableEq, Repr

/-- Row of the time table: `start_time` plus six `date_format` columns.  The
derived calendar columns are strings because `date_format` returns strings. -/
structure TimeRow where
  start_time : CalDT
  hour : String
  day : String
  week : String
  month : String
  year : String
  weekday : String
deriving DecidableEq, Repr

/-- Row of the songplays table before the id column is attached. -/
structure SongplaysRow where
  start_time : CalDT
  userId : Option String
  level : Option String
  song_id : Option String
  artist_id : Option String
  sessionId : Nat
  location : Option String
  userAgent : Option String
  year : String
  month : String
deriving DecidableEq, Repr

/-! ## Dataframe operations -/

/-- Spark `dropDuplicates([k])`: keep one row per key value (null keys
compare equal and also collapse to one surviving row).  `seen` accumulates
the key values already kept. -/
def dedupBy {α β : Type} [DecidableEq β] (key : α → β) : List β → List α → List α
  | _, [] => []
  | seen, x :: xs =>
    if key x ∈ seen then dedupBy key seen xs
    else x :: dedupBy key (key x :: seen) xs

/-- SQL equality on two nullable string columns, as used by the join
condition `log_df.song == song_df.title`: null never equals anything. -/
def optEq : Option String → Option String → Bool
  | some a, some b => a == b
  | _, _ => false

/-- The filter `df.filter(df["page"] == 'NextSong')`. -/
def filterNextSong (logs : List LogRecord) : List LogRecord :=
  logs.filter (fun r => r.page == "NextSong")

/-! ## The five tables -/

/-- Songs table: select, `dropDuplicates(["song_id"])`, `dropna(subset="song_id")`. -/
def songsTable (songs : List SongRecord) : List SongsRow :=
  (dedupBy (fun r => r.song_id) []
      (songs.map (fun r => SongsRow.mk r.song_id r.title r.artist_id r.year r.duration))).filter
    (fun r => decide (r.song_id ≠ none))

/-- Artists table: select, `dropDuplicates(["artist_id"])`, `dropna(subset="artist_id")`. -/
def artistsTable (songs : List SongRecord) : List ArtistsRow :=
  (dedupBy (fun r => r.artist_id) []
      (songs.map (fun r =>
        ArtistsRow.mk r.artist_id r.artist_name r.artist_location r.artist_latitude
          r.artist_longitude))).filter
    (fun r => decide (r.artist_id ≠ none))

/-- Users table: NextSong filter, select, `dropDuplicates(["userId"])`,
`dropna(subset="userId")`. -/
def usersTable (logs : List LogRecord) : List UsersRow :=
  (dedupBy (fun r => r.userId) []
      ((filterNextSong logs).map (fun r =>
        UsersRow.mk r.userId r.firstName r.lastName r.gender r.level))).filter
    (fun r => decide (r.userId ≠ none))

/-- One time-table row from a (filtered) log record. -/
def mkTimeRow (tz : Int) (r : LogRecord) : TimeRow :=
  let t := fromtimestamp tz r.ts
  TimeRow.mk t (fmtH t) (fmtD t) (fmtLowerW t) (fmtM t) (fmtY t) (fmtUpperW t)

/-- Time table: one row per NextSong-filtered log record (the source applies
no dropDuplicates to this select). -/
def timeTable (tz : Int) (logs : List LogRecord) : List TimeRow :=
  (filterNextSong logs).map (mkTimeRow tz)

/-- One songplays row from a joined (log event, song record) pair. -/
def mkSongplaysRow (tz : Int) (e : LogRecord) (s : SongRecord) : SongplaysRow :=
  let t := fromtimestamp tz e.ts
  SongplaysRow.mk t e.userId e.level s.song_id s.artist_id e.sessionId e.location
    e.userAgent (fmtY t) (fmtM t)

/-- Songplays table: inner join of the NextSong-filtered log events with the
re-loaded song records on `log_df.song == song_df.title`, then select. -/
def songplaysTable (tz : Int) (logs : List LogRecord) (songs : List SongRecord) :
    List SongplaysRow :=
  (filterNextSong logs).flatMap (fun e =>
    (songs.filter (fun s => optEq e.song s.title)).map (mkSongplaysRow tz e))

/-! ## monotonically_increasing_id

Spark's generator puts the partition index in the upper bits and a
per-partition row counter in the lower 33 bits; it assumes fewer than
2^33 records per partition.  A run is abstracted by the list of
per-partition row counts of the dataframe being numbered. -/

/-- The ids of one partition: `p * 2^33 + i` for the `n` rows of partition `p`
(`k` abstracts the constant `2^33`). -/
def midBlock (k p n : Nat) : List Nat :=
  (List.range n).map (fun i => p * k + i)

/-- Ids of the partitions from index `p` on, with per-partition row counts
given by the list. -/
def midIdsFrom (k : Nat) : Nat → List Nat → List Nat
  | _, [] => []
  | p, n :: rest => midBlock k p n ++ midIdsFrom k (p + 1) rest

/-- The id column produced by `monotonically_increasing_id()` for a dataframe
whose partitions hold `partSizes` rows. -/
def monotonicallyIncreasingIds (partSizes : List Nat) : List Nat :=
  midIdsFrom (2 ^ 33) 0 partSizes

/-- Songplays rows paired with their `songplay_id` (`withColumn` of
`monotonically_increasing_id()`), for a run whose partition row counts are
`partSizes`. -/
def songplaysWithId (tz : Int) (logs : List LogRecord) (songs : List SongRecord)
    (partSizes : List Nat) : List (SongplaysRow × Nat) :=
  (songplaysTable tz logs songs).zip (monotonicallyIncreasingIds partSizes)

/-! ## Effect trace of the script -/

/-- The observable side effects of the script: session creation, JSON reads
and parquet writes (with the partition columns passed to `partitionBy`, the
empty list when no `partitionBy` call is made). -/
inductive EtlAction where
  | createSession : EtlAction
  | readJson (path : String) : EtlAction
  | writeParquet (path : String) (partitionCols : List String) : EtlAction
deriving DecidableEq, Repr

/-- `os.path.join` for the paths the script builds. -/
def pathJoin (a b : String) : String :=
  if a.endsWith "/" then a ++ b else a ++ "/" ++ b

/-- Effect trace of `process_song_data`. -/
def processSongDataActions (inputData outputData : String) : List EtlAction :=
  [EtlAction.readJson (pathJoin inputData "song_data/*/*/*"),
   EtlAction.writeParquet (pathJoin outputData "songs_table_parquet") ["artist_id", "year"],
   EtlAction.writeParquet (pathJoin outputData "artist_table_parquet") []]

/-- Effect trace of `process_log_data`. -/
def processLogDataActions (inputData outputData : String) : List EtlAction :=
  [EtlAction.readJson (pathJoin inputData "log_data/*/*"),
   EtlAction.writeParquet (pathJoin outputData "user_table_parquet") [],
   EtlAction.writeParquet (pathJoin outputData "time_table_parquet") [],
   EtlAction.readJson (pathJoin inputData "song_data/*/*/*"),
   EtlAction.writeParquet (pathJoin outputData "songplay_table_parquet") ["year", "month"]]

/-- The partition columns of a write action. -/
def writeInfo : EtlAction → Option (String × List String)
  | EtlAction.writeParquet p cols => some (p, cols)
  | _ => none

/-- Orchestration of `main()`: create a session, run the log stage, then run
the song stage; each stage either yields its effect trace or fails with an
error that aborts the job.  A stage failure propagates immediately: nothing
later runs, there is no retry and no partial-run recovery. -/
def mainJob (logStage songStage : Except String (List EtlAction)) :
    Except String (List EtlAction) :=
  match logStage with
  | Except.error e => Except.error e
  | Except.ok la =>
    match songStage with
    | Except.error e => Except.error e
    | Except.ok sa => Except.ok (EtlAction.createSession :: (la ++ sa))

/-! ## Concrete sample records (from the project's test data) -/

/-- A NextSong log event whose `song` is "Setanta matins",
`ts = 1542241826796`. -/
def logSample : LogRecord :=
  LogRecord.mk "NextSong" (some "26") (some "Ryan") (some "Smith") (some "M")
    (some "free") (some "Setanta matins") (some "Elena") 1542241826796 583
    (some "San Jose-Sunnyvale-Santa Clara, CA") (some "Mozilla/5.0")

/-- A log record whose page is not NextSong. -/
def logHome : LogRecord :=
  LogRecord.mk "Home" (some "26") (some "Ryan") (some "Smith") (some "M")
    (some "free") none none 1542241826796 583
    (some "San Jose-Sunnyvale-Santa Clara, CA") (some "Mozilla/5.0")

/-- A NextSong log event with timestamp 2018-11-25T12:00:00 (UTC seconds
1543147200). -/
def logNov25 : LogRecord :=
  LogRecord.mk "NextSong" (some "26") (some "Ryan") (some "Smith") (some "M")
    (some "free") (some "Setanta matins") (some "Elena") 1543147200000 600
    (some "San Jose-Sunnyvale-Santa Clara, CA") (some "Mozilla/5.0")

/-- The song-metadata record titled "Setanta matins". -/
def songSample : SongRecord :=
  SongRecord.mk (some "SOZCTXZ12AB0182364") (some "Setanta matins")
    (some "AR5KOSW1187FB35FF4") (some "Elena") (some "Dubai UAE") (some 49)
    (some 15) (some 218) (some 0)

/-- A second song-metadata record with the same title but another id. -/
def songSample2 : SongRecord :=
  SongRecord.mk (some "SOAAAAA12AB0000001") (some "Setanta matins")
    (some "AR0000011187FB00001") (some "Other Artist") none none none
    (some 200) (some 1999)

/-! ## Helper lemmas -/

/-- Keys already seen never reappear in the deduplicated list. -/
theorem countP_dedupBy_of_mem {α β : Type} [DecidableEq β] (key : α → β) (k : β)
    (l : List α) : ∀ seen : List β, k ∈ seen →
    (dedupBy key seen l).countP (fun a => decide (key a = k)) = 0 := by
  induction l with
  | nil => intro seen _; rfl
  | cons x xs ih =>
    intro seen hk
    by_cases hx : key x ∈ seen
    · simp only [dedupBy, if_pos hx]
      exact ih seen hk
    · have hne : ¬ key x = k := fun h => hx (h ▸ hk)
      simp only [dedupBy, if_neg hx, List.countP_cons, hne, decide_False, if_false]
      simpa using ih (key x :: seen) (List.mem_cons_of_mem _ hk)

/-- A key not yet seen survives deduplication with multiplicity
`min 1` of its multiplicity in the input. -/
theorem countP_dedupBy_of_not_mem {α β : Type} [DecidableEq β] (key : α → β) (k : β)
    (l : List α) : ∀ seen : List β, k ∉ seen →
    (dedupBy key seen l).countP (fun a => decide (key a = k))
      = min 1 (l.countP (fun a => decide (key a = k))) := by
  induction l with
  | nil => intro seen _; rfl
  | cons x xs ih =>
    intro seen hk
    by_cases hx : key x ∈ seen
    · have hne : ¬ key x = k := fun h => hk (h ▸ hx)
      simp only [dedupBy, if_pos hx, List.countP_cons, hne, decide_False, if_false]
      simpa using ih seen hk
    · by_cases hxk : key x = k
      · have hmem : k ∈ key x :: seen := by simp [hxk]
        have hstep : dedupBy key seen (x :: xs) = x :: dedupBy key (key x :: seen) xs := by
          simp [dedupBy, hx]
        rw [hstep, List.countP_cons, List.countP_cons,
          countP_dedupBy_of_mem key k xs _ hmem]
        simp only [hxk, decide_True, if_true]
        rw [min_eq_left (Nat.le_add_left 1 _)]
      · have hk2 : k ∉ key x :: seen := by
          intro h
          rcases List.mem_cons.mp h with h | h
          · exact hxk h.symm
          · exact hk h
        simp only [dedupBy, if_neg hx, List.countP_cons, hxk, decide_False, if_false]
        simpa using ih (key x :: seen) hk2

/-- Filtering by a weaker predicate preserves the count of a stronger one. -/
theorem countP_filter_of_imp {α : Type} (l : List α) (p q : α → Bool)
    (h : ∀ a, p a = true → q a = true) :
    (l.filter q).countP p = l.countP p := by
  induction l with
  | nil => rfl
  | cons x xs ih =>
    by_cases hq : q x = true
    · simp [List.filter_cons, hq, List.countP_cons, ih]
    · have hp : ¬ p x = true := fun hp => hq (h x hp)
      simp [List.filter_cons, hq, List.countP_cons, hp, ih]

/-- The dropDuplicates-then-dropna pipeline keeps exactly one row per non-null
key value present in the input. -/
theorem dedup_dropna_countP {ρ : Type} [DecidableEq ρ] (key : ρ → Option String)
    (l : List ρ) (k : String) (h : ∃ a ∈ l, key a = some k) :
    ((dedupBy key [] l).filter (fun r => decide (key r ≠ none))).countP
      (fun r => decide (key r = some k)) = 1 := by
  rw [countP_filter_of_imp]
  · rw [countP_dedupBy_of_not_mem key (some k) l [] (List.not_mem_nil _)]
    have hpos : 0 < l.countP (fun a => decide (key a = some k)) := by
      rcases h with ⟨a, ha, hk⟩
      exact List.countP_pos_iff.mpr ⟨a, ha, by simp [hk]⟩
    omega
  · intro a ha
    have : key a = some k := of_decide_eq_true ha
    simp [this]

/-- After dropna on the key, no surviving row has a null key. -/
theorem dedup_dropna_no_null {ρ : Type} [DecidableEq ρ] (key : ρ → Option String)
    (l : List ρ) :
    ∀ r ∈ (dedupBy key [] l).filter (fun r => decide (key r ≠ none)), key r ≠ none := by
  intro r hr
  exact of_decide_eq_true (List.mem_filter.mp hr).2

/-- Length of a flatMap as the sum of the lengths of the pieces. -/
theorem length_flatMap_eq_sum {α β : Type} (l : List α) (f : α → List β) :
    (l.flatMap f).length = (l.map (fun a => (f a).length)).sum := by
  induction l with
  | nil => rfl
  | cons x xs ih => simp [List.flatMap_cons, ih]

/-- Mapping the second projection over a zip of equally long lists yields the
second list. -/
theorem map_snd_zip_eq {α β : Type} :
    ∀ (l1 : List α) (l2 : List β), l1.length = l2.length →
      (l1.zip l2).map Prod.snd = l2
  | [], [], _ => rfl
  | [], _ :: _, h => by simp at h
  | _ :: _, [], h => by simp at h
  | x :: xs, y :: ys, h => by
    simp only [List.zip_cons_cons, List.map_cons, List.cons.injEq, true_and]
    exact map_snd_zip_eq xs ys (by simpa using h)

/-- Bounds for the ids of one partition block. -/
theorem mem_midBlock {k p n x : Nat} (hx : x ∈ midBlock k p n) :
    p * k ≤ x ∧ x < p * k + n := by
  rcases List.mem_map.mp hx with ⟨i, hi, rfl⟩
  have := List.mem_range.mp hi
  omega

/-- Ids of one partition block are pairwise distinct. -/
theorem midBlock_nodup (k p n : Nat) : (midBlock k p n).Nodup :=
  (List.nodup_range n).map (fun a b h => by omega)

/-- Every id generated from partition index `p` on is at least `p * k`. -/
theorem mem_midIdsFrom_lb (k : Nat) :
    ∀ (l : List Nat) (p x : Nat), x ∈ midIdsFrom k p l → p * k ≤ x := by
  intro l
  induction l with
  | nil => intro p x hx; simp [midIdsFrom] at hx
  | cons n rest ih =>
    intro p x hx
    rcases List.mem_append.mp hx with hx | hx
    · exact (mem_midBlock hx).1
    · calc p * k ≤ (p + 1) * k := Nat.mul_le_mul_right k (Nat.le_succ p)
        _ ≤ x := ih (p + 1) x hx

/-- Number of generated ids equals total row count. -/
theorem midIdsFrom_length (k : Nat) :
    ∀ (l : List Nat) (p : Nat), (midIdsFrom k p l).length = l.sum := by
  intro l
  induction l with
  | nil => intro p; rfl
  | cons n rest ih => intro p; simp [midIdsFrom, midBlock, ih]

/-- When no partition exceeds `k` rows, the generated ids are pairwise
distinct. -/
theorem midIdsFrom_nodup (k : Nat) :
    ∀ (l : List Nat) (p : Nat), (∀ n ∈ l, n ≤ k) → (midIdsFrom k p l).Nodup := by
  intro l
  induction l with
  | nil => intro p _; exact List.nodup_nil
  | cons n rest ih =>
    intro p hcap
    refine (midBlock_nodup k p n).append (ih (p + 1) (fun m hm => hcap m (by simp [hm]))) ?_
    intro x hx1 hx2
    have h1 := (mem_midBlock hx1).2
    have h2 := mem_midIdsFrom_lb k rest (p + 1) x hx2
    have hn : n ≤ k := hcap n (by simp)
    have : (p + 1) * k = p * k + k := by ring
    omega

/-! ## Claims -/

/-- C1 (amended): the time table has exactly one row per NextSong-filtered log
record, in order, and that row's start_time is the converted timestamp of the
record; hence every distinct filtered-log timestamp appears, but records
sharing a timestamp produce repeated rows (the source applies no
deduplication to the time table). -/
theorem c1_time_rows (tz : Int) (logs : List LogRecord) :
    (timeTable tz logs).map (fun row => row.start_time)
      = (filterNextSong logs).map (fun r => fromtimestamp tz r.ts) := by
  simp only [timeTable, List.map_map]
  rfl

/-- C1 counterexample: two identical NextSong records produce two time-table
rows with the same start_time, so the claimed per-distinct-timestamp
uniqueness fails. -/
theorem c1_counterexample :
    ¬ ((timeTable 0 [logSample, logSample]).map (fun row => row.start_time)).Nodup
    ∧ (timeTable 0 [logSample, logSample]).length = 2 := by
  exact ⟨by decide, by decide⟩

/-- C2 counterexample: converting ts = 1542241826796 under a UTC timezone
yields the calendar timestamp 2018-11-15T00:30:26.796, not the
2018-11-14T21:43:46 stated by the claim. -/
theorem c2_counterexample :
    fromtimestamp 0 1542241826796 = CalDT.mk 2018 11 15 0 30 26 796
    ∧ ¬ ((fromtimestamp 0 1542241826796).day = 14
          ∧ (fromtimestamp 0 1542241826796).hour = 21
          ∧ (fromtimestamp 0 1542241826796).minute = 43
          ∧ (fromtimestamp 0 1542241826796).second = 46) := by
  exact ⟨by decide, by decide⟩

/-- C2 (amended): the conversion maps `ts` to the calendar timestamp in the
session's local timezone; under a UTC timezone, ts = 1542241826796 yields
start_time 2018-11-15T00:30:26.796, and the time-table year and month fields
of that row are the strings "2018" and "11" (the values 2018 and 11). -/
theorem c2_conversion :
    fromtimestamp 0 1542241826796 = CalDT.mk 2018 11 15 0 30 26 796
    ∧ (timeTable 0 [logSample]).map (fun row => row.year) = ["2018"]
    ∧ (timeTable 0 [logSample]).map (fun row => row.month) = ["11"] := by
  exact ⟨by decide, by decide, by decide⟩

/-- C3: a log record whose page is not "NextSong" contributes no row to the
users table, the time table or the songplays table: deleting such a record
from the input leaves all three tables unchanged. -/
theorem c3_non_nextsong_excluded (tz : Int) (songs : List SongRecord)
    (l1 l2 : List LogRecord) (r : LogRecord) (h : r.page ≠ "NextSong") :
    usersTable (l1 ++ r :: l2) = usersTable (l1 ++ l2)
    ∧ timeTable tz (l1 ++ r :: l2) = timeTable tz (l1 ++ l2)
    ∧ songplaysTable tz (l1 ++ r :: l2) songs = songplaysTable tz (l1 ++ l2) songs := by
  have hr : (r.page == "NextSong") = false := beq_eq_false_iff_ne.mpr h
  have hf : filterNextSong (l1 ++ r :: l2) = filterNextSong (l1 ++ l2) := by
    simp [filterNextSong, List.filter_append, List.filter_cons, hr]
  exact ⟨by simp [usersTable, hf], by simp [timeTable, hf], by simp [songplaysTable, hf]⟩

/-- C3 witness: a concrete non-NextSong record (page "Home") leaves the three
tables unchanged. -/
theorem c3_witness :
    usersTable ([] ++ logHome :: []) = usersTable ([] ++ [])
    ∧ timeTable 0 ([] ++ logHome :: []) = timeTable 0 ([] ++ [])
    ∧ songplaysTable 0 ([] ++ logHome :: []) [songSample]
        = songplaysTable 0 ([] ++ []) [songSample] :=
  c3_non_nextsong_excluded 0 [songSample] [] [] logHome (by decide)

/-- C4: the songplays table is the inner join of the NextSong-filtered log
events with the song records on string equality of song and title: its row
count is the sum over filtered events of the number of title matches, a
single event with exactly one matching title yields exactly one row, and a
single event with no matching title yields no row. -/
theorem c4_join_semantics (tz : Int) (logs : List LogRecord) (songs : List SongRecord)
    (e : LogRecord) (he : e.page = "NextSong") :
    (songplaysTable tz logs songs).length
      = ((filterNextSong logs).map (fun r => songs.countP (fun s => optEq r.song s.title))).sum
    ∧ (songs.countP (fun s => optEq e.song s.title) = 1
        → (songplaysTable tz [e] songs).length = 1)
    ∧ (songs.countP (fun s => optEq e.song s.title) = 0
        → songplaysTable tz [e] songs = []) := by
  have hfe : filterNextSong [e] = [e] := by
    simp [filterNextSong, List.filter_cons, he]
  refine ⟨?_, ?_, ?_⟩
  · rw [songplaysTable, length_flatMap_eq_sum]
    simp [List.countP_eq_length_filter]
  · intro h1
    rw [List.countP_eq_length_filter] at h1
    rw [songplaysTable, hfe]
    simp [h1]
  · intro h0
    rw [List.countP_eq_length_filter] at h0
    have hnil : songs.filter (fun s => optEq e.song s.title) = [] :=
      List.eq_nil_of_length_eq_zero h0
    rw [songplaysTable, hfe]
    simp [hnil]

/-- C4 witness: the "Setanta matins" event joined against the single
"Setanta matins" song record yields exactly one songplays row. -/
theorem c4_witness : (songplaysTable 0 [logSample] [songSample]).length = 1 :=
  (c4_join_semantics 0 [logSample] [songSample] logSample rfl).2.1 (by decide)

/-- C5: each key-deduplicated table satisfies the unique-non-null-key
invariant: a song record with non-null song_id yields exactly one songs-table
row with that song_id and no songs-table row has a null song_id; likewise the
artists table by artist_id and the users table by userId over the
NextSong-filtered records. -/
theorem c5_unique_keys (songs : List SongRecord) (logs : List LogRecord)
    (ks ka ku : String)
    (hs : ∃ r ∈ songs, r.song_id = some ks)
    (ha : ∃ r ∈ songs, r.artist_id = some ka)
    (hu : ∃ r ∈ filterNextSong logs, r.userId = some ku) :
    ((songsTable songs).countP (fun row => decide (row.song_id = some ks)) = 1
      ∧ ∀ row ∈ songsTable songs, row.song_id ≠ none)
    ∧ ((artistsTable songs).countP (fun row => decide (row.artist_id = some ka)) = 1
      ∧ ∀ row ∈ artistsTable songs, row.artist_id ≠ none)
    ∧ ((usersTable logs).countP (fun row => decide (row.userId = some ku)) = 1
      ∧ ∀ row ∈ usersTable logs, row.userId ≠ none) := by
  refine ⟨⟨?_, ?_⟩, ⟨?_, ?_⟩, ⟨?_, ?_⟩⟩
  · apply dedup_dropna_countP (fun row : SongsRow => row.song_id)
    rcases hs with ⟨r, hr, hk⟩
    exact ⟨_, List.mem_map_of_mem _ hr, hk⟩
  · exact dedup_dropna_no_null (fun row : SongsRow => row.song_id) _
  · apply dedup_dropna_countP (fun row : ArtistsRow => row.artist_id)
    rcases ha with ⟨r, hr, hk⟩
    exact ⟨_, List.mem_map_of_mem _ hr, hk⟩
  · exact dedup_dropna_no_null (fun row : ArtistsRow => row.artist_id) _
  · apply dedup_dropna_countP (fun row : UsersRow => row.userId)
    rcases hu with ⟨r, hr, hk⟩
    exact ⟨_, List.mem_map_of_mem _ hr, hk⟩
  · exact dedup_dropna_no_null (fun row : UsersRow => row.userId) _

/-- C5 witness: the sample song record's song_id appears exactly once in the
songs table built from it. -/
theorem c5_witness :
    (songsTable [songSample]).countP
      (fun row => decide (row.song_id = some "SOZCTXZ12AB0182364")) = 1 :=
  (c5_unique_keys [songSample] [logSample] "SOZCTXZ12AB0182364" "AR5KOSW1187FB35FF4" "26"
    ⟨songSample, List.mem_singleton_self _, rfl⟩
    ⟨songSample, List.mem_singleton_self _, rfl⟩
    ⟨logSample, by decide, rfl⟩).1.1

/-- C6 (amended): the time-table field labeled weekday is the week-of-month
date pattern (pattern W) applied to start_time, not a day-of-week value. -/
theorem c6_weekday_is_week_of_month (tz : Int) (logs : List LogRecord) :
    (timeTable tz logs).map (fun row => row.weekday)
      = (filterNextSong logs).map (fun r => fmtUpperW (fromtimestamp tz r.ts)) := by
  simp only [timeTable, List.map_map]
  rfl

/-- C6 counterexample: for the 2018-11-25 timestamp the weekday field is "5"
(week 5 of November), while the day-of-week-in-month value named by the claim
is 4 (the fourth Sunday), so the field is not computed from a
day-of-week-in-month pattern. -/
theorem c6_counterexample :
    (timeTable 0 [logNov25]).map (fun row => row.weekday) = ["5"]
    ∧ (timeTable 0 [logNov25]).map (fun row => row.weekday)
        ≠ [toString (dayOfWeekInMonth (fromtimestamp 0 1543147200000))]
    ∧ dayOfWeekInMonth (fromtimestamp 0 1543147200000) = 4 := by
  exact ⟨by decide, by decide, by decide⟩

/-- C7: the songs table is written partitioned by (artist_id, year) and the
songplays table partitioned by (year, month); the users, artists and time
tables are written with no partitioning call. -/
theorem c7_partitioning (i o : String) :
    (processSongDataActions i o).filterMap writeInfo
      = [(pathJoin o "songs_table_parquet", ["artist_id", "year"]),
         (pathJoin o "artist_table_parquet", [])]
    ∧ (processLogDataActions i o).filterMap writeInfo
      = [(pathJoin o "user_table_parquet", []),
         (pathJoin o "time_table_parquet", []),
         (pathJoin o "songplay_table_parquet", ["year", "month"])] :=
  ⟨rfl, rfl⟩

/-- C8: main creates one session and runs the log transform first and the
song transform second, concatenating their effect traces in that order; a log
stage failure makes the whole job fail with that error no matter what the
song stage would do (it is never attempted), and a song stage failure after a
successful log stage also fails the whole job. -/
theorem c8_orchestration (i o e : String) (songStage : Except String (List EtlAction)) :
    mainJob (Except.ok (processLogDataActions i o)) (Except.ok (processSongDataActions i o))
      = Except.ok (EtlAction.createSession ::
          (processLogDataActions i o ++ processSongDataActions i o))
    ∧ mainJob (Except.error e) songStage = Except.error e
    ∧ (∀ la : List EtlAction, mainJob (Except.ok la) (Except.error e) = Except.error e) :=
  ⟨rfl, rfl, fun _ => rfl⟩

/-- C9: within one run the songplay_id values attached to the songplays rows
are pairwise distinct, for any partitioning of the rows in which no partition
exceeds the generator's 2^33 per-partition capacity. -/
theorem c9_songplay_id_unique (tz : Int) (logs : List LogRecord)
    (songs : List SongRecord) (partSizes : List Nat)
    (hsum : partSizes.sum = (songplaysTable tz logs songs).length)
    (hcap : ∀ n ∈ partSizes, n ≤ 2 ^ 33) :
    ((songplaysWithId tz logs songs partSizes).map Prod.snd).Nodup := by
  have hlen : (songplaysTable tz logs songs).length
      = (monotonicallyIncreasingIds partSizes).length := by
    rw [monotonicallyIncreasingIds, midIdsFrom_length]
    exact hsum.symm
  rw [songplaysWithId, map_snd_zip_eq _ _ hlen]
  exact midIdsFrom_nodup (2 ^ 33) partSizes 0 hcap

/-- C9 witness: a two-row songplays table split into two one-row partitions
receives distinct (and non-contiguous) ids. -/
theorem c9_witness :
    ((songplaysWithId 0 [logSample] [songSample, songSample2] [1, 1]).map Prod.snd).Nodup :=
  c9_songplay_id_unique 0 [logSample] [songSample, songSample2] [1, 1]
    (by decide) (by decide)

/-- C10: the derived calendar columns are string-valued because they are
produced by date-formatting: every time-table row carries the six format
strings of its start_time, every songplays row carries the format strings of
its start_time as year and month, and for the 2018-11 sample timestamp the
year and month fields are the strings "2018" and "11". -/
theorem c10_string_valued_fields (tz : Int) (logs : List LogRecord)
    (songs : List SongRecord) :
    ((timeTable tz logs).map (fun row =>
        (row.hour, row.day, row.week, row.month, row.year, row.weekday))
      = (filterNextSong logs).map (fun r =>
          (fmtH (fromtimestamp tz r.ts), fmtD (fromtimestamp tz r.ts),
           fmtLowerW (fromtimestamp tz r.ts), fmtM (fromtimestamp tz r.ts),
           fmtY (fromtimestamp tz r.ts), fmtUpperW (fromtimestamp tz r.ts))))
    ∧ ((songplaysTable tz logs songs).map (fun row => (row.year, row.month))
      = (filterNextSong logs).flatMap (fun e =>
          (songs.filter (fun s => optEq e.song s.title)).map (fun _ =>
            (fmtY (fromtimestamp tz e.ts), fmtM (fromtimestamp tz e.ts)))))
    ∧ (timeTable 0 [logSample]).map (fun row => (row.year, row.month)) = [("2018", "11")]
    ∧ (songplaysTable 0 [logSample] [songSample]).map (fun row => (row.year, row.month))
        = [("2018", "11")] := by
  refine ⟨?_, ?_, by decide, by decide⟩
  · simp only [timeTable, List.map_map]
    rfl
  · simp only [songplaysTable, List.map_flatMap, List.map_map]
    rfl

end Etl
